import Mathlib

/-!
Verification of the Pavilion string-parsing pipeline's error-classification
engine (`lib/pavilion/parsers/__init__.py`): the `state_stack_dist` metric,
the `match_examples` classifier, and the `parse_text` entry point with its
tree cache.

The grammars themselves (lark) are external; parse functions are modelled as
arbitrary functions from strings to outcomes, and the exceptions that flow
through the module are modelled as an explicit `Exn` type.
-/

set_option autoImplicit false

namespace Pavilion

/-- A lark `Token`: a token type name and the matched text.  Identity of the
"specific unexpected token" is modelled structurally on both fields. -/
structure Token where
  type : String
  text : String
deriving DecidableEq, Repr

/-- An automaton state, modelled per the spec's data model as the parser's
ordered stack of opaque state identifiers (innermost last). -/
abbrev StateStack := List Nat

/-- The payload of a lark `UnexpectedCharacters` exception.  `state` is
`none` when the exception object lacks a `state` attribute. -/
structure CharsData where
  pos_in_stream : Nat
  state : Option StateStack
deriving DecidableEq, Repr

/-- The payload of a lark `UnexpectedToken` exception.  `expr_error = true`
models the presence of the `expr_error` annotation attribute that marks
failures coming from the nested expression grammar. -/
structure TokenData where
  pos_in_stream : Nat
  state : Option StateStack
  token : Token
  expr_error : Bool
deriving DecidableEq, Repr

/-- The two recognized grammar-failure kinds. -/
inductive Failure where
  | chars (d : CharsData)
  | tok (d : TokenData)
deriving DecidableEq, Repr

/-- The exceptions that can cross the boundaries of `parse_text`
and `match_examples`. -/
inductive Exn where
  | fail (f : Failure)
  | pve (msg : String) (pos : Nat)
  | deferred (var : String)
  | runtimeError (msg : String)
  | stringParserError (message : Option String) (context : String)
deriving DecidableEq, Repr

/-- The `state` attribute of a failure exception (`none` models a missing
attribute, as tested by `hasattr(exc, 'state')`). -/
def failState : Failure → Option StateStack
  | .chars d => d.state
  | .tok d => d.state

/-- The `pos_in_stream` attribute of a failure exception. -/
def failPos : Failure → Nat
  | .chars d => d.pos_in_stream
  | .tok d => d.pos_in_stream

/-- Whether an exception is one of the two recognized grammar-failure
kinds (those caught by `except (UnexpectedCharacters, UnexpectedToken)`). -/
def isFail : Exn → Bool
  | .fail _ => true
  | _ => false

/-- Scan `stack2[tmp_ptr:]` (passed as an explicit suffix, paired with the
absolute index `tmp_ptr`) for the first element equal to `x`, returning its
absolute index.  This is the inner `while tmp_ptr < len(stack2)` loop of
`_state_stack_dist`. -/
def findFromGo {α : Type} [DecidableEq α] (x : α) : List α → Nat → Option Nat
  | [], _ => none
  | b :: rest, tmp_ptr => if b = x then some tmp_ptr else findFromGo x rest (tmp_ptr + 1)

/-- Scan `stack2` from absolute index `tmp_ptr` for the first element equal
to `x`. -/
def findFrom {α : Type} [DecidableEq α] (stack2 : List α) (x : α) (tmp_ptr : Nat) : Option Nat :=
  findFromGo x (stack2.drop tmp_ptr) tmp_ptr

/-- The outer `for ptr1 in range(len(stack1))` loop of `_state_stack_dist`:
walk the remaining elements of `stack1`, keeping the forward-only cursor
`ptr2` into `stack2`; a found element moves the cursor past it, a missing
element counts one mismatch. -/
def ssdGo {α : Type} [DecidableEq α] (stack2 : List α) : List α → Nat → Nat
  | [], _ => 0
  | x :: rest, ptr2 =>
    match findFrom stack2 x ptr2 with
    | some idx => ssdGo stack2 rest (idx + 1)
    | none => 1 + ssdGo stack2 rest ptr2

/-- `_state_stack_dist`: directional stack distance, walking `stack1` with a
forward-only cursor into `stack2` starting at 0. -/
def _state_stack_dist {α : Type} [DecidableEq α] (stack1 stack2 : List α) : Nat :=
  ssdGo stack2 stack1 0

/-- `state_stack_dist`: symmetric stack distance, the sum of the two
directional distances normalized by the total stack length; `0` when both
stacks are empty. -/
def state_stack_dist {α : Type} [DecidableEq α] (stack1 stack2 : List α) : ℚ :=
  let dist1 := _state_stack_dist stack1 stack2
  let dist2 := _state_stack_dist stack2 stack1
  let total_stack_len := stack1.length + stack2.length
  if total_stack_len = 0 then 0
  else ((dist1 : ℚ) + (dist2 : ℚ)) / (total_stack_len : ℚ)

/-- Modelled from the spec: drop everything in the list up to and including
the first occurrence of `a`; `none` when `a` does not occur.  Used only to
phrase the spec's description of the directional walk. -/
def splitAfterFirst {α : Type} [DecidableEq α] (a : α) : List α → Option (List α)
  | [] => none
  | b :: rest => if b = a then some rest else splitAfterFirst a rest

/-- Modelled from the spec: the directional distance `d(A→B)` as the spec
words it — walk `A` left to right keeping a cursor into `B` (represented by
the remaining suffix of `B`); when the element is found ahead of the cursor,
advance past it, otherwise count one mismatch. -/
def spec_dir_walk {α : Type} [DecidableEq α] : List α → List α → Nat
  | [], _ => 0
  | a :: restA, bs =>
    match splitAfterFirst a bs with
    | some bs2 => spec_dir_walk restA bs2
    | none => 1 + spec_dir_walk restA bs

theorem findFromGo_ge {α : Type} [DecidableEq α] (x : α) :
    ∀ (suf : List α) (i idx : Nat), findFromGo x suf i = some idx → i ≤ idx := by
  intro suf
  induction suf with
  | nil => intro i idx h; simp [findFromGo] at h
  | cons b rest ih =>
    intro i idx h
    rw [findFromGo] at h
    by_cases hb : b = x
    · simp [hb] at h; omega
    · simp [hb] at h
      have := ih (i + 1) idx h
      omega

theorem findFromGo_split {α : Type} [DecidableEq α] (x : α) :
    ∀ (suf : List α) (i : Nat),
      splitAfterFirst x suf = (findFromGo x suf i).map (fun idx => suf.drop (idx + 1 - i)) := by
  intro suf
  induction suf with
  | nil => intro i; simp [splitAfterFirst, findFromGo]
  | cons b rest ih =>
    intro i
    rw [splitAfterFirst, findFromGo]
    by_cases hb : b = x
    · simp [hb]
    · simp only [if_neg hb]
      rw [ih (i + 1)]
      cases hf : findFromGo x rest (i + 1) with
      | none => simp
      | some idx =>
        have hge := findFromGo_ge x rest (i + 1) idx hf
        simp only [Option.map_some']
        have h1 : idx + 1 - (i + 1) = idx - i := by omega
        have h2 : idx + 1 - i = (idx - i) + 1 := by omega
        rw [h1, h2]
        rfl

theorem findFrom_split {α : Type} [DecidableEq α] (B : List α) (x : α) (ptr : Nat) :
    splitAfterFirst x (B.drop ptr) =
      (findFrom B x ptr).map (fun idx => B.drop (idx + 1)) := by
  rw [findFrom, findFromGo_split x (B.drop ptr) ptr]
  cases hf : findFromGo x (B.drop ptr) ptr with
  | none => simp
  | some idx =>
    have hge := findFromGo_ge x (B.drop ptr) ptr idx hf
    simp only [Option.map_some']
    rw [List.drop_drop]
    have h1 : ptr + (idx + 1 - ptr) = idx + 1 := by omega
    rw [h1]

theorem ssdGo_spec {α : Type} [DecidableEq α] (B : List α) :
    ∀ (l : List α) (ptr : Nat), ssdGo B l ptr = spec_dir_walk l (B.drop ptr) := by
  intro l
  induction l with
  | nil => intro ptr; rw [ssdGo, spec_dir_walk]
  | cons x rest ih =>
    intro ptr
    rw [ssdGo, spec_dir_walk, findFrom_split B x ptr]
    cases hf : findFrom B x ptr with
    | none => simp only [Option.map_none']; rw [ih ptr]
    | some idx => simp only [Option.map_some']; rw [ih (idx + 1)]

/-- The directional Python distance coincides with the spec's wording of the
directional walk. -/
theorem _state_stack_dist_eq_spec {α : Type} [DecidableEq α] (A B : List α) :
    _state_stack_dist A B = spec_dir_walk A B := by
  rw [_state_stack_dist, ssdGo_spec B A 0, List.drop_zero]

theorem spec_dir_walk_self {α : Type} [DecidableEq α] : ∀ (A : List α), spec_dir_walk A A = 0 := by
  intro A
  induction A with
  | nil => rw [spec_dir_walk]
  | cons a rest ih =>
    rw [spec_dir_walk, splitAfterFirst]
    simp [ih]

theorem state_stack_dist_formula {α : Type} [DecidableEq α] (A B : List α) :
    state_stack_dist A B =
      if A.length + B.length = 0 then 0
      else ((spec_dir_walk A B : ℚ) + (spec_dir_walk B A : ℚ))
        / ((A.length : ℚ) + (B.length : ℚ)) := by
  simp only [state_stack_dist, _state_stack_dist_eq_spec]
  by_cases h : A.length + B.length = 0
  · simp [h]
  · simp only [if_neg h]
    push_cast
    rfl

theorem state_stack_dist_self {α : Type} [DecidableEq α] (A : List α) :
    state_stack_dist A A = 0 := by
  rw [state_stack_dist_formula]
  by_cases h : A.length + A.length = 0
  · simp [h]
  · simp [h, spec_dir_walk_self]

/-- C2: `state_stack_dist A B` equals the sum of the two spec-worded
directional walk distances `d(A→B) + d(B→A)` normalized by `|A| + |B|`
(0 when both stacks are empty), it is `0` on identical stacks, and on the
spec's concrete example it computes `1/7`. -/
theorem state_stack_dist_matches_spec :
    (∀ (A B : List String),
      state_stack_dist A B =
        if A.length + B.length = 0 then 0
        else ((spec_dir_walk A B : ℚ) + (spec_dir_walk B A : ℚ))
          / ((A.length : ℚ) + (B.length : ℚ)))
    ∧ (∀ (A : List String), state_stack_dist A A = 0)
    ∧ state_stack_dist ["a", "b", "c", "d"] ["a", "c", "d"] = 1 / 7 :=
  ⟨fun A B => state_stack_dist_formula A B,
   fun A => state_stack_dist_self A,
   by
    rw [state_stack_dist_formula]
    have h1 : spec_dir_walk ["a", "b", "c", "d"] ["a", "c", "d"] = 1 := by decide
    have h2 : spec_dir_walk ["a", "c", "d"] ["a", "b", "c", "d"] = 0 := by decide
    rw [h1, h2]
    norm_num⟩

/-- An `ErrorCat` catalog entry: the message, the bad examples, and the
never-consulted disambiguator (stored as its regex source text). -/
structure ErrorCat where
  message : String
  examples : List String
  disambiguator : Option String := none
deriving DecidableEq, Repr

/-- The static catalog `BAD_EXAMPLES`. -/
def BAD_EXAMPLES : List ErrorCat := [
  { message := "Unmatched \"\x7b\x7b\"",
    examples := ["\x7b\x7b 9", "\x7b\x7b", "text \x7b\x7b", "[~ \x7b\x7b ~]", "a \x7b\x7bb \x7d"] },
  { message := "Unmatched \"[~\"", examples := ["[~ hello", "[~"] },
  { message := "Nested Expression", examples := ["\x7b\x7b foo \x7b\x7b bar \x7d\x7d \x7d\x7d"] },
  { message := "Unmatched \"\x7d\x7d\"",
    examples := ["baz \x7d\x7d", "\x7d\x7d", "[~ hello \x7d\x7d ~]"] },
  { message := "Unescaped tilde", examples := ["~unescaped tilde"],
    disambiguator := some "(?<!\\[\\\\)~" },
  { message := "Trailing Backslash", examples := ["trailing backslash\\"],
    disambiguator := some "(^|[^\\\\])(\\\\\\\\)*\\\\$" },
  { message := "Unmatched \"~<sep>]\"", examples := ["hello ~_]", "~_]", "[~a~] ~]"] },
  { message := "Nested Iteration", examples := ["[~ foo [~ bar ~] ~]"] },
  { message := "Invalid Syntax",
    examples := ["\x7b\x7ba**b\x7d\x7d", "\x7b\x7ba^^b\x7d\x7d", "\x7b\x7ba== ==b\x7d\x7d",
                 "\x7b\x7ba///b\x7d\x7d", "\x7b\x7ba or or b\x7d\x7d", "\x7b\x7ba+*b\x7d\x7d",
                 "\x7b\x7b1 2\x7d\x7d", "\x7b\x7b\"a\" 2\x7d\x7d", "\x7b\x7b[1] 2\x7d\x7d",
                 "\x7b\x7bFalse 2\x7d\x7d"] },
  { message := "Hanging Operation",
    examples := ["\x7b\x7ba+\x7d\x7d", "\x7b\x7ba*\x7d\x7d", "\x7b\x7ba^\x7d\x7d",
                 "\x7b\x7ba<\x7d\x7d", "\x7b\x7ba or\x7d\x7d", "\x7b\x7ba and\x7d\x7d",
                 "\x7b\x7bnot\x7d\x7d"] },
  { message := "Unmatched \"(\"",
    examples := ["\x7b\x7b(a+b\x7d\x7d", "\x7b\x7bfunky(\x7d\x7d", "\x7b\x7bfunky(a\x7d\x7d"] },
  { message := "Unclosed String", examples := ["\x7b\x7ba + \"hell\x7d\x7d"] },
  { message := "Unclosed List",
    examples := ["\x7b\x7ba + [1, 2\x7d\x7d", "\x7b\x7ba + [1,\x7d\x7d"] },
  { message := "Misplaced Comma",
    examples := ["\x7b\x7ba + [,1,2,]\x7d\x7d", "\x7b\x7ba + [1,2,,]\x7d\x7d"] },
  { message := "Missing Close Parenthesis",
    examples := ["hello(1, \"world\"", "hello(1, 12", "hello(1, 12.3"] }]

/-- The fallback catalog entry returned when nothing matches. -/
def NO_MATCH_EXAMPLE : ErrorCat :=
  { message := "Unknown syntax error. Please report at https://github.com/hpc/pavilion2/issues",
    examples := [] }

/-- Python `\w` (ASCII): letters, digits and underscore (`word_re = r'\w+'`). -/
def isWordChar (c : Char) : Bool := c.isAlphanum || c = '_'

/-- Python `\s` (ASCII): the whitespace characters (`ws_re = r'\s+'`). -/
def isSpaceCharPy (c : Char) : Bool :=
  c = ' ' || c = '\t' || c = '\n' || c = '\r' || c = '\x0b' || c = '\x0c'

/-- `regex.match` for a `\w+`-style class pattern anchored at the string
start: succeeds iff the string begins with a character of the class. -/
def matchesAtStart (cls : Char → Bool) (s : String) : Bool :=
  match s.data with
  | [] => false
  | c :: _ => cls c

/-- `re_compare`: both strings match the given anchored class regex. -/
def re_compare (str1 str2 : String) (regex : Char → Bool) : Bool :=
  matchesAtStart regex str1 && matchesAtStart regex str2

/-- Python single-character string indexing `s[i]` (in range at call sites). -/
def charAt (s : String) (i : Nat) : Char := s.data.getD i (Char.ofNat 0)

/-- The `UnexpectedCharacters` exact-match test of `match_examples`: the two
offending characters agree, or both are word characters, or both are
whitespace. -/
def chars_exact_match (text : String) (excd : CharsData)
    (ex_text : String) (errd : CharsData) : Bool :=
  (charAt ex_text errd.pos_in_stream == charAt text excd.pos_in_stream)
  || re_compare (ex_text.drop errd.pos_in_stream)
       (String.singleton (charAt text excd.pos_in_stream)) isWordChar
  || re_compare (ex_text.drop errd.pos_in_stream)
       (String.singleton (charAt text excd.pos_in_stream)) isSpaceCharPy

/-- The nested `for example in examples: for ex_text in example.examples:`
iteration, flattened into one list of (entry, example-text) pairs in the
same order. -/
def catalog_pairs (examples : List ErrorCat) : List (ErrorCat × String) :=
  examples.flatMap fun ecat => ecat.examples.map fun t => (ecat, t)

/-- The example-matching loop of `match_examples`, carrying `closest_dist`
(initially the 2.0 ceiling) and `closest_example` (initially the fallback);
returns `.ok` with a message, or propagates an exception.  A reparse that
raises `ParserValueError` raises `RuntimeError`; exceptions other than the
two grammar-failure kinds and `ParserValueError` are not caught. -/
def ex_loop (exc : Failure) (pf : String → Except Exn String) (text : String) :
    List (ErrorCat × String) → ℚ → ErrorCat → Except Exn String
  | [], _, closest_example => .ok closest_example.message
  | (ecat, ex_text) :: rest, closest_dist, closest_example =>
    match pf ex_text with
    | .ok _ => ex_loop exc pf text rest closest_dist closest_example
    | .error (.fail (.chars errd)) =>
      match exc with
      | .tok _ => ex_loop exc pf text rest closest_dist closest_example
      | .chars excd =>
        if chars_exact_match text excd ex_text errd then .ok ecat.message
        else ex_loop exc pf text rest closest_dist closest_example
    | .error (.fail (.tok errd)) =>
      match exc with
      | .chars _ => ex_loop exc pf text rest closest_dist closest_example
      | .tok excd =>
        if errd.expr_error ≠ excd.expr_error then
          ex_loop exc pf text rest closest_dist closest_example
        else if errd.state = excd.state ∧ errd.token = excd.token then
          .ok ecat.message
        else
          let stack1 := errd.state.getD []
          let stack2 := excd.state.getD []
          let dist0 : ℚ := state_stack_dist stack1 stack2 + 1
          let dist := if excd.token.type = errd.token.type then dist0 - 1 else dist0
          if dist ≤ closest_dist then ex_loop exc pf text rest dist ecat
          else ex_loop exc pf text rest closest_dist closest_example
    | .error (.pve _ _) =>
      .error (.runtimeError
        ("Invalid failure example in string_parsers: \x27" ++ ex_text ++ "\x27"))
    | .error e => .error e

/-- The localization loop of `match_examples` (`while err_pos <= len(text)`),
reparsing growing prefixes of `text` and recording the substring between the
original failure position and the prefix end whenever a prefix fails at the
original automaton state.  `fuel` counts the remaining iterations: a caller
starting at `err_pos` passes `text.length + 1 - err_pos`.  Only the two
grammar-failure kinds are caught; anything else propagates. -/
def loc_loop (pf : String → Except Exn String) (exc_state : Option StateStack)
    (exc_pos : Nat) (text : String) :
    Nat → Nat → String → Except Exn String
  | 0, _, err_string => .ok err_string
  | fuel + 1, err_pos, err_string =>
    match pf (text.take err_pos) with
    | .ok _ => loc_loop pf exc_state exc_pos text fuel (err_pos + 1) err_string
    | .error (.fail f) =>
      let err_string2 :=
        if failState f = exc_state then (text.take err_pos).drop exc_pos else err_string
      loc_loop pf exc_state exc_pos text fuel (err_pos + 1) err_string2
    | .error e => .error e

/-- `match_examples`: returns `none` when the exception lacks a `state`
attribute; otherwise runs the localization loop (whose string result is
discarded), then the example-matching loop starting from the 2.0 ceiling
and the fallback entry. -/
def match_examples (exc : Failure) (pf : String → Except Exn String)
    (examples : List ErrorCat) (text : String) : Except Exn (Option String) :=
  if (failState exc).isNone then .ok none
  else
    let err_pos := failPos exc + 1
    match loc_loop pf (failState exc) (failPos exc) text
        (text.length + 1 - err_pos) err_pos text with
    | .error e => .error e
    | .ok _err_string =>
      match ex_loop exc pf text (catalog_pairs examples) 2 NO_MATCH_EXAMPLE with
      | .ok msg => .ok (some msg)
      | .error e => .error e

/-- The mutable module-level tree cache `_TREE_CACHE` and, alongside it,
instrumentation counters for grammar-parse and transform invocations (the
spec's "parse-call counter"), threaded explicitly through `parse_text`. -/
structure PState (Tree : Type) where
  cache : List (String × Tree)
  parser_calls : Nat
  transform_calls : Nat
deriving DecidableEq, Repr

/-- `_TREE_CACHE.get(txt)`: first binding of the key wins. -/
def cacheGet {Tree : Type} : List (String × Tree) → String → Option Tree
  | [], _ => none
  | (k, t) :: rest, txt => if k = txt then some t else cacheGet rest txt

/-- The inner `parse_fn` closure of `parse_text`: fetch the cached tree, or
derive it with the grammar and cache it — only a successful parse reaches
the cache assignment — then transform the tree.  The returned `PState`
carries the updated cache and invocation counts. -/
def parse_fn {Tree : Type} (parser : String → Except Exn Tree)
    (transform : Tree → Except Exn String)
    (s : PState Tree) (txt : String) : Except Exn String × PState Tree :=
  match cacheGet s.cache txt with
  | some tree => (transform tree, { s with transform_calls := s.transform_calls + 1 })
  | none =>
    match parser txt with
    | .ok tree =>
      (transform tree,
       { cache := (txt, tree) :: s.cache,
         parser_calls := s.parser_calls + 1,
         transform_calls := s.transform_calls + 1 })
    | .error e => (.error e, { s with parser_calls := s.parser_calls + 1 })

/-- The outcome of the `parse_fn` closure as a pure function of the cache at
hand-off time.  The cache only ever memoizes trees the parser itself
produced, so its growth during error classification never changes a reparse
outcome; `match_examples` receives this cache-free view of the closure. -/
def parse_fn_pure {Tree : Type} (parser : String → Except Exn Tree)
    (transform : Tree → Except Exn String)
    (cache : List (String × Tree)) (txt : String) : Except Exn String :=
  (parse_fn parser transform { cache := cache, parser_calls := 0, transform_calls := 0 } txt).1

/-- Substring occurrence test over character lists. -/
def listHasSub (needle : List Char) : List Char → Bool
  | [] => needle.isEmpty
  | c :: rest => needle.isPrefixOf (c :: rest) || listHasSub needle rest

/-- Modelled from the spec: `should_parse` is defined in
`parsers/strings.py`, which is not among the provided sources.  Per the
spec's fast path, it accepts exactly the strings containing at least one
template-significant sequence — an expression open, an iteration open, or
the escape marker. -/
def should_parse (text : String) : Bool :=
  listHasSub "\x7b\x7b".data text.data || listHasSub "[~".data text.data
    || listHasSub "\\".data text.data

/-- Modelled from the spec: lark's `err.get_context(text)` — external
library code — renders the failure location as a pointer-at-column snippet
of the source text. -/
def get_context (pos : Nat) (text : String) : String :=
  text ++ "\n" ++ String.mk (List.replicate pos ' ') ++ "^"

/-- `parse_text`: the template-resolution entry point.  The fast path
returns the text unchanged; otherwise the text is parsed and transformed via
`parse_fn`; a grammar failure is routed through `match_examples` and
re-raised as `StringParserError`, a `ParserValueError` is re-raised as
`StringParserError` with its own message, and every other exception — the
deferred-variable condition included — propagates unchanged. -/
def parse_text {Tree : Type} (parser : String → Except Exn Tree)
    (transform : Tree → Except Exn String)
    (s : PState Tree) (text : String) : Except Exn String × PState Tree :=
  if should_parse text then
    match parse_fn parser transform s text with
    | (.ok value, s2) => (.ok value, s2)
    | (.error (.fail f), s2) =>
      match match_examples f (parse_fn_pure parser transform s2.cache) BAD_EXAMPLES text with
      | .ok err_type =>
        (.error (.stringParserError err_type (get_context (failPos f) text)), s2)
      | .error e => (.error e, s2)
    | (.error (.pve msg pos), s2) =>
      (.error (.stringParserError (some msg) (get_context pos text)), s2)
    | (.error e, s2) => (.error e, s2)
  else (.ok text, s)

/-- C6: when the cheap scan rejects the text, `parse_text` returns the text
unchanged — for every parser, transformer (hence variable source) and cache
state — with the cache and both invocation counters untouched. -/
theorem parse_text_fast_path {Tree : Type} (parser : String → Except Exn Tree)
    (transform : Tree → Except Exn String) (s : PState Tree) (text : String)
    (h : should_parse text = false) :
    parse_text parser transform s text = (.ok text, s) := by
  simp [parse_text, h]

theorem parse_text_fast_path_witness :
    should_parse "hello world" = false ∧
      parse_text (fun _ => .ok ()) (fun _ => .ok "") (⟨[], 0, 0⟩ : PState Unit) "hello world"
        = (.ok "hello world", ⟨[], 0, 0⟩) :=
  ⟨by decide, parse_text_fast_path _ _ _ _ (by decide)⟩

/-- C5: a deferred-variable condition signalled by the resolution of the
text propagates out of `parse_text` unchanged: it is never caught, never
converted into a `StringParserError` or message, and never replaced by a
substituted value. -/
theorem parse_text_propagates_deferred {Tree : Type} (parser : String → Except Exn Tree)
    (transform : Tree → Except Exn String) (s : PState Tree) (text : String)
    (v : String) (s2 : PState Tree)
    (hp : should_parse text = true)
    (h : parse_fn parser transform s text = (.error (.deferred v), s2)) :
    parse_text parser transform s text = (.error (.deferred v), s2) := by
  simp [parse_text, hp, h]

theorem parse_text_propagates_deferred_witness :
    parse_text (fun _ => .ok ()) (fun _ => .error (.deferred "a"))
        (⟨[], 0, 0⟩ : PState Unit) "\x7b\x7ba\x7d\x7d"
      = (.error (.deferred "a"), ⟨[("\x7b\x7ba\x7d\x7d", ())], 1, 1⟩) :=
  parse_text_propagates_deferred _ _ _ _ _ _ (by decide) (by rfl)

/-- C7: the cache discipline of `parse_fn`: a cached text is answered from
the cache with no new grammar derivation and no cache change; a failing
parse raises before any insertion and leaves the cache unchanged; a
successful parse of an uncached text inserts exactly the parser's tree under
that text while preserving every existing entry; and a repeated call on the
same text reuses the freshly cached tree without a second derivation. -/
theorem parse_fn_cache_discipline {Tree : Type} (parser : String → Except Exn Tree)
    (transform : Tree → Except Exn String) :
    (∀ (s : PState Tree) txt tree, cacheGet s.cache txt = some tree →
      parse_fn parser transform s txt
        = (transform tree, { s with transform_calls := s.transform_calls + 1 }))
    ∧ (∀ (s : PState Tree) txt e, cacheGet s.cache txt = none → parser txt = .error e →
      parse_fn parser transform s txt
        = (.error e, { s with parser_calls := s.parser_calls + 1 }))
    ∧ (∀ (s : PState Tree) txt tree, cacheGet s.cache txt = none → parser txt = .ok tree →
      parse_fn parser transform s txt
        = (transform tree,
           { cache := (txt, tree) :: s.cache,
             parser_calls := s.parser_calls + 1,
             transform_calls := s.transform_calls + 1 })
      ∧ cacheGet ((txt, tree) :: s.cache) txt = some tree
      ∧ (∀ k, k ≠ txt → cacheGet ((txt, tree) :: s.cache) k = cacheGet s.cache k))
    ∧ (∀ (s : PState Tree) txt tree, cacheGet s.cache txt = none → parser txt = .ok tree →
      parse_fn parser transform (parse_fn parser transform s txt).2 txt
        = (transform tree,
           { cache := (txt, tree) :: s.cache,
             parser_calls := s.parser_calls + 1,
             transform_calls := s.transform_calls + 2 })) := by
  refine ⟨?_, ?_, ?_, ?_⟩
  · intro s txt tree h
    simp [parse_fn, h]
  · intro s txt e hc hp
    simp [parse_fn, hc, hp]
  · intro s txt tree hc hp
    refine ⟨by simp [parse_fn, hc, hp], by simp [cacheGet], ?_⟩
    intro k hk
    simp only [cacheGet]
    rw [if_neg (fun he => hk he.symm)]
  · intro s txt tree hc hp
    have h1 : parse_fn parser transform s txt
        = (transform tree,
           { cache := (txt, tree) :: s.cache,
             parser_calls := s.parser_calls + 1,
             transform_calls := s.transform_calls + 1 }) := by
      simp [parse_fn, hc, hp]
    rw [h1]
    simp [parse_fn, cacheGet]

theorem parse_fn_cache_discipline_witness :
    (parse_fn (fun _ => .ok 7) (fun (_ : Nat) => .ok "r")
        (⟨[("a", 5)], 0, 0⟩ : PState Nat) "a" = (.ok "r", ⟨[("a", 5)], 0, 1⟩))
    ∧ (parse_fn (fun _ => .error (.deferred "x")) (fun (_ : Nat) => .ok "r")
        (⟨[], 0, 0⟩ : PState Nat) "b" = (.error (.deferred "x"), ⟨[], 1, 0⟩))
    ∧ (parse_fn (fun _ => .ok 7) (fun (_ : Nat) => .ok "r")
        (⟨[], 0, 0⟩ : PState Nat) "b" = (.ok "r", ⟨[("b", 7)], 1, 1⟩))
    ∧ (parse_fn (fun _ => .ok 7) (fun (_ : Nat) => .ok "r")
        (parse_fn (fun _ => .ok 7) (fun (_ : Nat) => .ok "r") (⟨[], 0, 0⟩ : PState Nat) "b").2
        "b" = (.ok "r", ⟨[("b", 7)], 1, 2⟩)) :=
  ⟨(parse_fn_cache_discipline _ _).1 _ "a" 5 (by rfl),
   (parse_fn_cache_discipline _ _).2.1 _ "b" _ (by rfl) (by rfl),
   ((parse_fn_cache_discipline _ _).2.2.1 _ "b" 7 (by rfl) (by rfl)).1,
   (parse_fn_cache_discipline _ _).2.2.2 _ "b" 7 (by rfl) (by rfl)⟩

/-- C9: a failure exception lacking an automaton-state attribute makes
`match_examples` return `None` rather than the fallback catalog message, and
the `StringParserError` that `parse_text` subsequently raises carries `none`
as its message instead of a string. -/
theorem match_examples_no_state {Tree : Type} (parser : String → Except Exn Tree)
    (transform : Tree → Except Exn String) :
    (∀ (exc : Failure) (pf : String → Except Exn String) examples text,
      failState exc = none → match_examples exc pf examples text = .ok none)
    ∧ (∀ (s : PState Tree) text f s2, should_parse text = true →
      failState f = none →
      parse_fn parser transform s text = (.error (.fail f), s2) →
      parse_text parser transform s text
        = (.error (.stringParserError none (get_context (failPos f) text)), s2)) := by
  constructor
  · intro exc pf examples text h
    simp [match_examples, h]
  · intro s text f s2 hp hs hf
    have hm : match_examples f (parse_fn_pure parser transform s2.cache) BAD_EXAMPLES text
        = .ok none := by
      simp [match_examples, hs]
    simp [parse_text, hp, hf, hm]

theorem match_examples_no_state_witness :
    (match_examples (.chars ⟨0, none⟩) (fun _ => .ok "") BAD_EXAMPLES "" = .ok none)
    ∧ (parse_text (fun _ => .error (.fail (.chars ⟨0, none⟩)))
        (fun (_ : Unit) => .ok "") (⟨[], 0, 0⟩ : PState Unit) "\x7b\x7b"
        = (.error (.stringParserError none (get_context 0 "\x7b\x7b")), ⟨[], 1, 0⟩)) :=
  ⟨(match_examples_no_state (fun (_ : String) => .ok (() : Unit)) (fun _ => .ok "")).1
      _ _ _ _ (by rfl),
   (match_examples_no_state _ _).2 _ _ (.chars ⟨0, none⟩) _ (by decide) (by rfl) (by rfl)⟩

/-- Outcomes the classifier's reparse handlers recognize: success or one of
the two grammar-failure kinds. -/
def ok_or_fail (r : Except Exn String) : Bool :=
  match r with
  | .ok _ => true
  | .error (.fail _) => true
  | .error _ => false

theorem ex_loop_skip_ok (exc : Failure) (pf : String → Except Exn String) (text : String)
    (ecat : ErrorCat) (ex_text : String) (rest : List (ErrorCat × String))
    (d : ℚ) (b : ErrorCat) (v : String) (h : pf ex_text = .ok v) :
    ex_loop exc pf text ((ecat, ex_text) :: rest) d b = ex_loop exc pf text rest d b := by
  simp [ex_loop, h]

theorem ex_loop_pve_raises (exc : Failure) (pf : String → Except Exn String) (text : String)
    (ecat : ErrorCat) (ex_text : String) (rest : List (ErrorCat × String))
    (d : ℚ) (b : ErrorCat) (m : String) (p : Nat) (h : pf ex_text = .error (.pve m p)) :
    ex_loop exc pf text ((ecat, ex_text) :: rest) d b
      = .error (.runtimeError
          ("Invalid failure example in string_parsers: \x27" ++ ex_text ++ "\x27")) := by
  simp [ex_loop, h]

theorem ex_loop_uncaught (exc : Failure) (pf : String → Except Exn String) (text : String)
    (ecat : ErrorCat) (ex_text : String) (rest : List (ErrorCat × String))
    (d : ℚ) (b : ErrorCat) (e : Exn)
    (hnf : isFail e = false) (hnp : ∀ m p, e ≠ .pve m p)
    (h : pf ex_text = .error e) :
    ex_loop exc pf text ((ecat, ex_text) :: rest) d b = .error e := by
  cases e with
  | fail f => simp [isFail] at hnf
  | pve m p => exact absurd rfl (hnp m p)
  | deferred v => simp [ex_loop, h]
  | runtimeError m => simp [ex_loop, h]
  | stringParserError m c => simp [ex_loop, h]

theorem ex_loop_tok_flag_skip (excd errd : TokenData) (pf : String → Except Exn String)
    (text : String) (ecat : ErrorCat) (ex_text : String) (rest : List (ErrorCat × String))
    (d : ℚ) (b : ErrorCat)
    (h : pf ex_text = .error (.fail (.tok errd)))
    (hf : errd.expr_error ≠ excd.expr_error) :
    ex_loop (.tok excd) pf text ((ecat, ex_text) :: rest) d b
      = ex_loop (.tok excd) pf text rest d b := by
  simp [ex_loop, h, hf]

theorem ex_loop_tok_exact (excd errd : TokenData) (pf : String → Except Exn String)
    (text : String) (ecat : ErrorCat) (ex_text : String) (rest : List (ErrorCat × String))
    (d : ℚ) (b : ErrorCat)
    (h : pf ex_text = .error (.fail (.tok errd)))
    (hf : errd.expr_error = excd.expr_error)
    (hs : errd.state = excd.state) (ht : errd.token = excd.token) :
    ex_loop (.tok excd) pf text ((ecat, ex_text) :: rest) d b = .ok ecat.message := by
  simp [ex_loop, h, hf, hs, ht]

theorem ex_loop_tok_fuzzy (excd errd : TokenData) (pf : String → Except Exn String)
    (text : String) (ecat : ErrorCat) (ex_text : String) (rest : List (ErrorCat × String))
    (d : ℚ) (b : ErrorCat)
    (h : pf ex_text = .error (.fail (.tok errd)))
    (hf : errd.expr_error = excd.expr_error)
    (hne : ¬(errd.state = excd.state ∧ errd.token = excd.token)) :
    ex_loop (.tok excd) pf text ((ecat, ex_text) :: rest) d b
      = (if (if excd.token.type = errd.token.type
              then state_stack_dist (errd.state.getD []) (excd.state.getD []) + 1 - 1
              else state_stack_dist (errd.state.getD []) (excd.state.getD []) + 1) ≤ d
         then ex_loop (.tok excd) pf text rest
                (if excd.token.type = errd.token.type
                 then state_stack_dist (errd.state.getD []) (excd.state.getD []) + 1 - 1
                 else state_stack_dist (errd.state.getD []) (excd.state.getD []) + 1) ecat
         else ex_loop (.tok excd) pf text rest d b) := by
  simp only [ex_loop, h]
  rw [if_neg (fun hc => hc hf), if_neg hne]

theorem loc_loop_completes (pf : String → Except Exn String) (st : Option StateStack)
    (pos : Nat) (text : String) (hpf : ∀ n : Nat, ok_or_fail (pf (text.take n)) = true) :
    ∀ (fuel err_pos : Nat) (err_string : String),
      ∃ out, loc_loop pf st pos text fuel err_pos err_string = .ok out := by
  intro fuel
  induction fuel with
  | zero => intro err_pos err_string; exact ⟨err_string, rfl⟩
  | succ fuel ih =>
    intro err_pos err_string
    have hn := hpf err_pos
    cases hr : pf (text.take err_pos) with
    | ok v => simpa [loc_loop, hr] using ih (err_pos + 1) err_string
    | error e =>
      cases e with
      | fail f =>
        simpa [loc_loop, hr] using
          ih (err_pos + 1)
            (if failState f = st then (text.take err_pos).drop pos else err_string)
      | pve m p => rw [hr] at hn; simp [ok_or_fail] at hn
      | deferred v => rw [hr] at hn; simp [ok_or_fail] at hn
      | runtimeError m => rw [hr] at hn; simp [ok_or_fail] at hn
      | stringParserError m c => rw [hr] at hn; simp [ok_or_fail] at hn

theorem match_examples_unfold (exc : Failure) (pf : String → Except Exn String)
    (examples : List ErrorCat) (text : String)
    (hst : (failState exc).isSome)
    (hpf : ∀ n : Nat, ok_or_fail (pf (text.take n)) = true) :
    match_examples exc pf examples text
      = (ex_loop exc pf text (catalog_pairs examples) 2 NO_MATCH_EXAMPLE).map some := by
  rw [match_examples]
  rw [if_neg (by simp [Option.isNone_iff_eq_none]; exact Option.isSome_iff_ne_none.mp hst)]
  obtain ⟨out, hout⟩ := loc_loop_completes pf (failState exc) (failPos exc) text hpf
    (text.length + 1 - (failPos exc + 1)) (failPos exc + 1) text
  dsimp only
  rw [hout]
  cases hex : ex_loop exc pf text (catalog_pairs examples) 2 NO_MATCH_EXAMPLE with
  | ok msg => simp [Except.map]
  | error e => simp [Except.map]

theorem state_stack_dist_comm {α : Type} [DecidableEq α] (A B : List α) :
    state_stack_dist A B = state_stack_dist B A := by
  simp only [state_stack_dist]
  rw [Nat.add_comm B.length A.length]
  rw [add_comm ((_state_stack_dist B A : ℚ))]

/-- The fuzzy score, worded with the original failure's stack first as the
spec does: stack distance plus one, minus one when the two unexpected
tokens share a token type. -/
def fuzzy_score (excd errd : TokenData) : ℚ :=
  state_stack_dist (excd.state.getD []) (errd.state.getD []) + 1
    - (if excd.token.type = errd.token.type then 1 else 0)

theorem fuzzy_if_eq (excd errd : TokenData) :
    (if excd.token.type = errd.token.type
      then state_stack_dist (errd.state.getD []) (excd.state.getD []) + 1 - 1
      else state_stack_dist (errd.state.getD []) (excd.state.getD []) + 1)
    = fuzzy_score excd errd := by
  rw [fuzzy_score, state_stack_dist_comm]
  by_cases hty : excd.token.type = errd.token.type
  · simp [hty]
  · simp [hty]

/-- C3: when the original failure and the reparsed catalog example are both
token-kind with agreeing annotated flags, the example is declared an exact
match — its message returned immediately, whatever candidates remain —
exactly when the automaton state and the specific unexpected token are both
identical, the loop otherwise falling through to the fuzzy branch; and an
example whose annotated flag differs from the original failure's is never
matched at all, neither exactly nor as a fuzzy candidate: the loop just
moves on with the tracked candidate unchanged. -/
theorem token_exact_match_iff (excd errd : TokenData) (ecat : ErrorCat) (ex_text : String)
    (pf : String → Except Exn String) (text : String)
    (h : pf ex_text = .error (.fail (.tok errd))) :
    (∀ (rest : List (ErrorCat × String)) (d : ℚ) (b : ErrorCat),
      errd.expr_error = excd.expr_error →
      ((errd.state = excd.state ∧ errd.token = excd.token) →
        ex_loop (.tok excd) pf text ((ecat, ex_text) :: rest) d b = .ok ecat.message)
      ∧ (¬(errd.state = excd.state ∧ errd.token = excd.token) →
        ex_loop (.tok excd) pf text ((ecat, ex_text) :: rest) d b
          = (if (if excd.token.type = errd.token.type
                  then state_stack_dist (errd.state.getD []) (excd.state.getD []) + 1 - 1
                  else state_stack_dist (errd.state.getD []) (excd.state.getD []) + 1) ≤ d
             then ex_loop (.tok excd) pf text rest
                    (if excd.token.type = errd.token.type
                     then state_stack_dist (errd.state.getD []) (excd.state.getD []) + 1 - 1
                     else state_stack_dist (errd.state.getD []) (excd.state.getD []) + 1) ecat
             else ex_loop (.tok excd) pf text rest d b)))
    ∧ (∀ (rest : List (ErrorCat × String)) (d : ℚ) (b : ErrorCat),
      errd.expr_error ≠ excd.expr_error →
      ex_loop (.tok excd) pf text ((ecat, ex_text) :: rest) d b
        = ex_loop (.tok excd) pf text rest d b) :=
  ⟨fun rest d b hf =>
    ⟨fun hst => ex_loop_tok_exact excd errd pf text ecat ex_text rest d b h hf hst.1 hst.2,
     fun hne => ex_loop_tok_fuzzy excd errd pf text ecat ex_text rest d b h hf hne⟩,
   fun rest d b hf => ex_loop_tok_flag_skip excd errd pf text ecat ex_text rest d b h hf⟩

/-- The original failure used by the concrete classifier witnesses. -/
def exData : TokenData := ⟨0, some [1], ⟨"A", "x"⟩, false⟩

/-- An example failure agreeing with `exData` on state and token. -/
def errSame : TokenData := ⟨3, some [1], ⟨"A", "x"⟩, false⟩

/-- An example failure whose annotated flag differs from `exData`. -/
def errFlag : TokenData := ⟨0, some [1], ⟨"A", "x"⟩, true⟩

/-- An example failure with agreeing flag but different state. -/
def errNear : TokenData := ⟨0, some [2], ⟨"A", "x"⟩, false⟩

/-- A one-message catalog entry for the concrete witnesses. -/
def catM : ErrorCat := ⟨"m", [], none⟩

theorem token_exact_match_iff_witness :
    (ex_loop (.tok exData) (fun _ => .error (.fail (.tok errSame))) "" [(catM, "e")] 2
        NO_MATCH_EXAMPLE = .ok "m")
    ∧ (ex_loop (.tok exData) (fun _ => .error (.fail (.tok errNear))) "" [(catM, "e")] 2
        NO_MATCH_EXAMPLE
      = (if (if exData.token.type = errNear.token.type
              then state_stack_dist (errNear.state.getD []) (exData.state.getD []) + 1 - 1
              else state_stack_dist (errNear.state.getD []) (exData.state.getD []) + 1) ≤ 2
         then ex_loop (.tok exData) (fun _ => .error (.fail (.tok errNear))) "" []
                (if exData.token.type = errNear.token.type
                 then state_stack_dist (errNear.state.getD []) (exData.state.getD []) + 1 - 1
                 else state_stack_dist (errNear.state.getD []) (exData.state.getD []) + 1) catM
         else ex_loop (.tok exData) (fun _ => .error (.fail (.tok errNear))) "" [] 2
                NO_MATCH_EXAMPLE))
    ∧ (ex_loop (.tok exData) (fun _ => .error (.fail (.tok errFlag))) "" [(catM, "e")] 2
        NO_MATCH_EXAMPLE
      = ex_loop (.tok exData) (fun _ => .error (.fail (.tok errFlag))) "" [] 2
          NO_MATCH_EXAMPLE) :=
  ⟨((token_exact_match_iff exData errSame catM "e" _ "" rfl).1 [] 2 NO_MATCH_EXAMPLE
      rfl).1 ⟨rfl, rfl⟩,
   ((token_exact_match_iff exData errNear catM "e" _ "" rfl).1 [] 2 NO_MATCH_EXAMPLE
      rfl).2 (by decide),
   (token_exact_match_iff exData errFlag catM "e" _ "" rfl).2 [] 2 NO_MATCH_EXAMPLE
      (by decide)⟩

/-- C1 (amended): for every original token-kind failure and catalog example
whose reparse yields a token-kind failure with an agreeing annotated flag
but not an exact match, the fuzzy score equals
stack-distance(originalState, exampleState) + 1, minus 1 when the two
unexpected tokens share the same token type; the example loop starts from
the 2.0 ceiling and the default no-match entry, and a candidate replaces the
tracked entry exactly when its score is less than or equal to the tracked
score — hence only a score ≤ 2.0 ever replaces the default no-match result,
and when two candidates have equal scores the one found last, not first, is
the one kept. -/
theorem fuzzy_tracking_amended :
    (∀ (excd errd : TokenData) (ecat : ErrorCat) (ex_text : String)
       (pf : String → Except Exn String) (text : String)
       (rest : List (ErrorCat × String)) (d : ℚ) (b : ErrorCat),
      pf ex_text = .error (.fail (.tok errd)) →
      errd.expr_error = excd.expr_error →
      ¬(errd.state = excd.state ∧ errd.token = excd.token) →
      ex_loop (.tok excd) pf text ((ecat, ex_text) :: rest) d b
        = (if fuzzy_score excd errd ≤ d
           then ex_loop (.tok excd) pf text rest (fuzzy_score excd errd) ecat
           else ex_loop (.tok excd) pf text rest d b))
    ∧ (∀ (exc : Failure) (pf : String → Except Exn String) (examples : List ErrorCat)
        (text : String),
      (failState exc).isSome →
      (∀ n : Nat, ok_or_fail (pf (text.take n)) = true) →
      match_examples exc pf examples text
        = (ex_loop exc pf text (catalog_pairs examples) 2 NO_MATCH_EXAMPLE).map some) := by
  constructor
  · intro excd errd ecat ex_text pf text rest d b h hf hne
    rw [ex_loop_tok_fuzzy excd errd pf text ecat ex_text rest d b h hf hne, fuzzy_if_eq]
  · intro exc pf examples text hst hpf
    exact match_examples_unfold exc pf examples text hst hpf

theorem fuzzy_tracking_amended_witness :
    (ex_loop (.tok exData) (fun _ => .error (.fail (.tok errNear))) "x" [(catM, "e")] 2
        NO_MATCH_EXAMPLE
      = (if fuzzy_score exData errNear ≤ 2
         then ex_loop (.tok exData) (fun _ => .error (.fail (.tok errNear))) "x" []
                (fuzzy_score exData errNear) catM
         else ex_loop (.tok exData) (fun _ => .error (.fail (.tok errNear))) "x" [] 2
                NO_MATCH_EXAMPLE))
    ∧ (match_examples (.tok exData) (fun _ => .ok "") [catM] "x"
      = (ex_loop (.tok exData) (fun _ => .ok "") "x" (catalog_pairs [catM]) 2
          NO_MATCH_EXAMPLE).map some) :=
  ⟨fuzzy_tracking_amended.1 exData errNear catM "e" _ "x" [] 2 NO_MATCH_EXAMPLE rfl rfl
      (by decide),
   fuzzy_tracking_amended.2 (.tok exData) _ [catM] "x" rfl (fun _ => rfl)⟩

/-- The original failure of the tie-breaking counterexample. -/
def tieExc : TokenData := ⟨0, some [1, 2], ⟨"A", "x"⟩, false⟩

/-- The (shared) example failure of the tie-breaking counterexample: same
flag, different stack and token type, at fuzzy score exactly 2. -/
def tieErr : TokenData := ⟨0, some [9], ⟨"B", "y"⟩, false⟩

/-- A reparse function failing identically on both catalog examples. -/
def tiePf : String → Except Exn String := fun t =>
  if t = "e1" || t = "e2" then .error (.fail (.tok tieErr)) else .ok ""

/-- The catalog entry found first. -/
def tieCat1 : ErrorCat := ⟨"first", ["e1"], none⟩

/-- The catalog entry found second. -/
def tieCat2 : ErrorCat := ⟨"second", ["e2"], none⟩

theorem tie_dist_value : state_stack_dist ([1, 2] : List Nat) [9] = 1 := by
  rw [state_stack_dist_formula]
  have h1 : spec_dir_walk ([1, 2] : List Nat) [9] = 2 := by decide
  have h2 : spec_dir_walk ([9] : List Nat) [1, 2] = 1 := by decide
  rw [h1, h2]
  norm_num

/-- C1 counterexample: both catalog entries yield the same fuzzy score, yet
`match_examples` returns the message of the entry found second, not first. -/
theorem fuzzy_tie_goes_to_later :
    match_examples (.tok tieExc) tiePf [tieCat1, tieCat2] "" = .ok (some "second")
    ∧ match_examples (.tok tieExc) tiePf [tieCat1, tieCat2] "" ≠ .ok (some "first") := by
  have hm : match_examples (.tok tieExc) tiePf [tieCat1, tieCat2] "" = .ok (some "second") := by
    rw [match_examples]
    rw [if_neg (by decide)]
    dsimp only
    have hloc : loc_loop tiePf (failState (.tok tieExc)) (failPos (.tok tieExc)) ""
        ("".length + 1 - (failPos (.tok tieExc) + 1)) (failPos (.tok tieExc) + 1) ""
        = .ok "" := by rfl
    rw [hloc]
    have hpairs : catalog_pairs [tieCat1, tieCat2] = [(tieCat1, "e1"), (tieCat2, "e2")] := by
      rfl
    rw [hpairs]
    have hstep1 :
        ex_loop (.tok tieExc) tiePf "" [(tieCat1, "e1"), (tieCat2, "e2")] 2 NO_MATCH_EXAMPLE
          = ex_loop (.tok tieExc) tiePf "" [(tieCat2, "e2")] (fuzzy_score tieExc tieErr)
              tieCat1 := by
      rw [ex_loop_tok_fuzzy tieExc tieErr tiePf "" tieCat1 "e1" [(tieCat2, "e2")] 2
            NO_MATCH_EXAMPLE rfl rfl (by decide), fuzzy_if_eq]
      rw [if_pos ?hle]
      case hle =>
        rw [fuzzy_score]
        simp only [tieExc, tieErr, Option.getD_some]
        rw [tie_dist_value]
        rw [if_neg (by decide : ¬("A" : String) = "B")]
        norm_num
    have hstep2 :
        ex_loop (.tok tieExc) tiePf "" [(tieCat2, "e2")] (fuzzy_score tieExc tieErr) tieCat1
          = ex_loop (.tok tieExc) tiePf "" [] (fuzzy_score tieExc tieErr) tieCat2 := by
      rw [ex_loop_tok_fuzzy tieExc tieErr tiePf "" tieCat2 "e2" []
            (fuzzy_score tieExc tieErr) tieCat1 rfl rfl (by decide), fuzzy_if_eq]
      rw [if_pos le_rfl]
    rw [hstep1, hstep2]
    rfl
  refine ⟨hm, ?_⟩
  rw [hm]
  intro hc
  injection hc with h1
  injection h1 with h2
  exact absurd h2 (by decide)

/-- A catalog entry whose example reparses successfully. -/
def okCat : ErrorCat := ⟨"okmsg", ["good"], none⟩

/-- C4 counterexample: a catalog example whose reparse succeeds without
failing at all is silently skipped — `match_examples` returns the generic
fallback message normally instead of raising an internal-invariant error. -/
theorem catalog_success_not_loud :
    match_examples (.tok exData) (fun _ => .ok "") [okCat] ""
      = .ok (some NO_MATCH_EXAMPLE.message) := by
  rfl

/-- C4 (amended): a catalog example whose reparse raises an exception that
is neither of the two recognized failure kinds is not silently skipped —
`ParserValueError` raises a loud internal-invariant `RuntimeError` and any
other exception propagates uncaught — but an example whose reparse succeeds
without failing at all is silently skipped, the loop moving on with the
tracked candidate unchanged. -/
theorem catalog_defect_amended :
    (∀ (exc : Failure) (pf : String → Except Exn String) (text : String) (ecat : ErrorCat)
       (ex_text : String) (rest : List (ErrorCat × String)) (d : ℚ) (b : ErrorCat)
       (m : String) (p : Nat),
      pf ex_text = .error (.pve m p) →
      ex_loop exc pf text ((ecat, ex_text) :: rest) d b
        = .error (.runtimeError
            ("Invalid failure example in string_parsers: \x27" ++ ex_text ++ "\x27")))
    ∧ (∀ (exc : Failure) (pf : String → Except Exn String) (text : String) (ecat : ErrorCat)
       (ex_text : String) (rest : List (ErrorCat × String)) (d : ℚ) (b : ErrorCat) (e : Exn),
      isFail e = false → (∀ m p, e ≠ .pve m p) → pf ex_text = .error e →
      ex_loop exc pf text ((ecat, ex_text) :: rest) d b = .error e)
    ∧ (∀ (exc : Failure) (pf : String → Except Exn String) (text : String) (ecat : ErrorCat)
       (ex_text : String) (rest : List (ErrorCat × String)) (d : ℚ) (b : ErrorCat) (v : String),
      pf ex_text = .ok v →
      ex_loop exc pf text ((ecat, ex_text) :: rest) d b = ex_loop exc pf text rest d b) :=
  ⟨fun exc pf text ecat ex_text rest d b m p h =>
    ex_loop_pve_raises exc pf text ecat ex_text rest d b m p h,
   fun exc pf text ecat ex_text rest d b e hnf hnp h =>
    ex_loop_uncaught exc pf text ecat ex_text rest d b e hnf hnp h,
   fun exc pf text ecat ex_text rest d b v h =>
    ex_loop_skip_ok exc pf text ecat ex_text rest d b v h⟩

theorem catalog_defect_amended_witness :
    (ex_loop (.tok exData) (fun _ => .error (.pve "bad" 0)) "" [(catM, "g")] 2 NO_MATCH_EXAMPLE
      = .error (.runtimeError "Invalid failure example in string_parsers: \x27g\x27"))
    ∧ (ex_loop (.tok exData) (fun _ => .error (.deferred "v")) "" [(catM, "g")] 2
        NO_MATCH_EXAMPLE = .error (.deferred "v"))
    ∧ (ex_loop (.tok exData) (fun _ => .ok "") "" [(catM, "g")] 2 NO_MATCH_EXAMPLE
      = ex_loop (.tok exData) (fun _ => .ok "") "" [] 2 NO_MATCH_EXAMPLE) :=
  ⟨catalog_defect_amended.1 (.tok exData) _ "" catM "g" [] 2 NO_MATCH_EXAMPLE "bad" 0 rfl,
   catalog_defect_amended.2.1 (.tok exData) _ "" catM "g" [] 2 NO_MATCH_EXAMPLE
      (.deferred "v") rfl (fun _ _ => by intro hc; cases hc) rfl,
   catalog_defect_amended.2.2 (.tok exData) _ "" catM "g" [] 2 NO_MATCH_EXAMPLE "" rfl⟩

/-- Modelled from the spec for the refinement comparison: `match_examples`
with the localization loop of step 1 removed — the missing-state check, then
directly the example-matching loop. -/
def match_examples_noloc (exc : Failure) (pf : String → Except Exn String)
    (examples : List ErrorCat) (text : String) : Except Exn (Option String) :=
  if (failState exc).isNone then .ok none
  else
    match ex_loop exc pf text (catalog_pairs examples) 2 NO_MATCH_EXAMPLE with
    | .ok msg => .ok (some msg)
    | .error e => .error e

/-- C8: the localization step is diagnostic-only — for every parse function
that on each prefix of the text either succeeds or raises one of the two
recognized failure kinds, `match_examples` with the localization loop
removed returns exactly what `match_examples` with it present returns. -/
theorem localization_no_effect (exc : Failure) (pf : String → Except Exn String)
    (examples : List ErrorCat) (text : String)
    (hpf : ∀ n : Nat, ok_or_fail (pf (text.take n)) = true) :
    match_examples exc pf examples text = match_examples_noloc exc pf examples text := by
  by_cases hst : (failState exc).isNone
  · rw [match_examples, match_examples_noloc, if_pos hst, if_pos hst]
  · have hsome : (failState exc).isSome := by
      cases h : failState exc with
      | none => exact absurd (by rw [h]; rfl) hst
      | some v => rfl
    rw [match_examples_noloc, if_neg hst]
    rw [match_examples_unfold exc pf examples text hsome hpf]
    cases ex_loop exc pf text (catalog_pairs examples) 2 NO_MATCH_EXAMPLE with
    | ok msg => rfl
    | error e => rfl

theorem localization_no_effect_witness :
    match_examples (.tok exData) (fun _ => .ok "") BAD_EXAMPLES "z"
      = match_examples_noloc (.tok exData) (fun _ => .ok "") BAD_EXAMPLES "z" :=
  localization_no_effect (.tok exData) _ BAD_EXAMPLES "z" (fun _ => rfl)

theorem loc_loop_first_error (pf : String → Except Exn String) (st : Option StateStack)
    (pos : Nat) (text : String) (fuel err_pos : Nat) (err_string : String) (e : Exn)
    (he : isFail e = false) (h : pf (text.take err_pos) = .error e) :
    loc_loop pf st pos text (fuel + 1) err_pos err_string = .error e := by
  cases e with
  | fail f => simp [isFail] at he
  | pve m p => simp [loc_loop, h]
  | deferred v => simp [loc_loop, h]
  | runtimeError m => simp [loc_loop, h]
  | stringParserError m c => simp [loc_loop, h]

theorem match_examples_prefix_error (exc : Failure) (pf : String → Except Exn String)
    (examples : List ErrorCat) (text : String) (e : Exn)
    (hst : (failState exc).isSome)
    (hle : failPos exc + 1 ≤ text.length)
    (h : pf (text.take (failPos exc + 1)) = .error e)
    (he : isFail e = false) :
    match_examples exc pf examples text = .error e := by
  rw [match_examples]
  rw [if_neg (by simp [Option.isNone_iff_eq_none]; exact Option.isSome_iff_ne_none.mp hst)]
  dsimp only
  obtain ⟨k, hk⟩ : ∃ k, text.length + 1 - (failPos exc + 1) = k + 1 :=
    ⟨text.length - (failPos exc + 1), by omega⟩
  rw [hk]
  rw [loc_loop_first_error pf (failState exc) (failPos exc) text k (failPos exc + 1) text e
        he h]

/-- C10: the parse function `parse_text` hands to `match_examples` both
parses and transforms against the caller's real variable source; anything
raised during a reparse of a prefix or of a catalog example that is not one
of the two recognized grammar-failure kinds — such as a deferred-variable
condition from evaluating a successfully parsed prefix — propagates out of
`match_examples` uncaught, and `parse_text` then raises that exception in
place of a `StringParserError` for the original syntax error. -/
theorem reclassification_leaks {Tree : Type} (parser : String → Except Exn Tree)
    (transform : Tree → Except Exn String) :
    (∀ (exc : Failure) (pf : String → Except Exn String) (examples : List ErrorCat)
       (text : String) (e : Exn),
      (failState exc).isSome → failPos exc + 1 ≤ text.length →
      pf (text.take (failPos exc + 1)) = .error e → isFail e = false →
      match_examples exc pf examples text = .error e)
    ∧ (∀ (exc : Failure) (pf : String → Except Exn String) (examples : List ErrorCat)
       (text : String) (e : Exn) (ecat : ErrorCat) (ex_text : String)
       (rest : List (ErrorCat × String)),
      (failState exc).isSome →
      (∀ n : Nat, ok_or_fail (pf (text.take n)) = true) →
      catalog_pairs examples = (ecat, ex_text) :: rest →
      pf ex_text = .error e → isFail e = false → (∀ m p, e ≠ .pve m p) →
      match_examples exc pf examples text = .error e)
    ∧ (∀ (s : PState Tree) (text : String) (f : Failure) (s2 : PState Tree) (e : Exn),
      should_parse text = true →
      parse_fn parser transform s text = (.error (.fail f), s2) →
      (failState f).isSome → failPos f + 1 ≤ text.length →
      parse_fn_pure parser transform s2.cache (text.take (failPos f + 1)) = .error e →
      isFail e = false →
      parse_text parser transform s text = (.error e, s2)) := by
  refine ⟨?_, ?_, ?_⟩
  · intro exc pf examples text e hst hle h he
    exact match_examples_prefix_error exc pf examples text e hst hle h he
  · intro exc pf examples text e ecat ex_text rest hst hpf hcp h he hnp
    rw [match_examples_unfold exc pf examples text hst hpf, hcp]
    rw [ex_loop_uncaught exc pf text ecat ex_text rest 2 NO_MATCH_EXAMPLE e he hnp h]
    rfl
  · intro s text f s2 e hp hpf hst hle hpfx he
    have hme : match_examples f (parse_fn_pure parser transform s2.cache) BAD_EXAMPLES text
        = .error e :=
      match_examples_prefix_error f _ BAD_EXAMPLES text e hst hle hpfx he
    simp [parse_text, hp, hpf, hme]

/-- The failing original text of the C10 witness. -/
def leakText : String := "\x7b\x7ba"

/-- The grammar model of the C10 witness: the full text fails at the
annotated token failure, every proper prefix parses. -/
def leakParser : String → Except Exn Unit := fun t =>
  if t = leakText then .error (.fail (.tok exData)) else .ok ()

/-- The transformer model of the C10 witness: evaluation hits a deferred
variable. -/
def leakTransform : Unit → Except Exn String := fun _ => .error (.deferred "v")

theorem reclassification_leaks_witness :
    (match_examples (.tok exData) (fun _ => .error (.deferred "v")) [] "ab"
      = .error (.deferred "v"))
    ∧ (match_examples (.tok exData)
        (fun t => if t = "good" then .error (.deferred "v") else .ok "") [okCat] ""
      = .error (.deferred "v"))
    ∧ (parse_text leakParser leakTransform (⟨[], 0, 0⟩ : PState Unit) leakText
      = (.error (.deferred "v"), ⟨[], 1, 0⟩)) :=
  ⟨(reclassification_leaks (fun (_ : String) => Except.ok (() : Unit)) (fun _ => .ok "")).1
      (.tok exData) _ [] "ab" _ rfl (by decide) rfl rfl,
   (reclassification_leaks (fun (_ : String) => Except.ok (() : Unit)) (fun _ => .ok "")).2.1
      (.tok exData) _ [okCat] "" _ okCat "good" [] rfl
      (fun n => by
        rw [show ("" : String).take n = "" by rw [String.take_eq]; simp]
        rfl)
      rfl rfl rfl (fun _ _ hc => by cases hc),
   (reclassification_leaks leakParser leakTransform).2.2 _ leakText (.tok exData) _ _
      rfl rfl rfl (by decide) rfl rfl⟩

end Pavilion
